import Mathlib

/-
Verification of the windows-graphics-capture repository.

The embedding models ScreenCapture::InternalCapture (src/core/ScreenCaptureCore.cpp)
together with the DLL wrapper functions CaptureScreenWithOptions, CaptureScreenToMemory,
FreeBuffer and GetErrorDescription (src/dll/ScreenCaptureDLL.cpp).  External platform
calls (Direct3D device creation, interop, capture item and session creation, the cursor
toggle, StartCapture, frame delivery and the save path inside the FrameArrived callback)
are modelled by an environment record describing their outcomes; the control flow of the
orchestrator itself is translated statement by statement.
-/

/-- Error codes of the capture core (ScreenCaptureCore.h, enum class ErrorCode).
Wire values are given by ConvertErrorCode below. -/
inductive ErrorCode : Type where
  | Success
  | InitializationFailed
  | CaptureItemCreationFailed
  | CaptureSessionFailed
  | TextureProcessingFailed
  | FileSaveFailed
  | TimeoutError
  | UnknownError
  deriving DecidableEq

/-- Outcome of the FrameArrived callback body in ScreenCapture::InternalCapture.
noFrame: TryGetNextFrame returned null, the completion flag is left unset.
texError: an hresult_error escaped texture interop, staging or mapping; the handler
sets frameReceived without captureSuccess.  saveError: the inner save block threw;
captureSuccess stays false but frameReceived is set.  saveOk: encoding and saving
succeeded, captureSuccess and frameReceived are both set. -/
inductive FrameOutcome : Type where
  | noFrame
  | texError
  | saveError
  | saveOk
  deriving DecidableEq

/-- A frame-ready notification: the instant, in milliseconds after the wait starts,
at which the callback finishes, and what happened inside it. -/
structure FrameEvent : Type where
  time : Nat
  outcome : FrameOutcome
  deriving DecidableEq

/-- Outcomes of the external operations invoked by ScreenCapture::InternalCapture.
Each Ok flag is true when the corresponding platform call does not throw an
hresult_error.  frameEvent is none when the FrameArrived callback never fires.
extra models per-iteration scheduling slack (time beyond the 50 ms sleep) of the
wait loop. -/
structure Env : Type where
  deviceOk : Bool
  interopOk : Bool
  captureItemOk : Bool
  framePoolOk : Bool
  sessionCreateOk : Bool
  cursorToggleOk : Bool
  borderToggleOk : Bool
  startOk : Bool
  frameEvent : Option FrameEvent
  extra : Nat → Nat

/-- Observable outcome of one InternalCapture invocation: the returned ErrorCode,
whether session.Close() and framePool.Close() executed before the return, whether
the wait loop was reached, how many loop iterations ran and the elapsed
milliseconds at the final flag check. -/
structure CaptureRun : Type where
  result : ErrorCode
  sessionClosed : Bool
  framePoolClosed : Bool
  reachedWait : Bool
  waitIterations : Nat
  waitElapsed : Nat

/-- Run produced when an hresult_error thrown during setup reaches the outer
catch handler of InternalCapture: it returns CaptureSessionFailed and the
explicit Close calls never execute. -/
def hresultFailure : CaptureRun :=
  { result := ErrorCode.CaptureSessionFailed
    sessionClosed := false
    framePoolClosed := false
    reachedWait := false
    waitIterations := 0
    waitElapsed := 0 }

/-- Value of the shared frameReceived flag at elapsed time t, given the instant
at which the callback sets it (none when it never does). -/
def received : Option Nat → Nat → Bool
  | none, _ => false
  | some a, t => decide (a ≤ t)

/-- The wait loop of InternalCapture: while (!frameReceived && elapsed < 10 s)
the waiting thread pumps messages, sleeps 50 ms and re-checks.  Each iteration
advances the clock by 50 ms plus nonnegative slack.  Returns the elapsed time at
the exiting check and the number of iterations.  The fuel argument only bounds
the recursion; 201 units are never exhausted because the clock gains at least
50 ms per iteration against the 10000 ms budget. -/
def waitLoopAux (arrival : Option Nat) (extra : Nat → Nat) : Nat → Nat → Nat → Nat × Nat
  | 0, t, i => (t, i)
  | fuel + 1, t, i =>
    if received arrival t = false ∧ t < 10000 then
      waitLoopAux arrival extra fuel (t + 50 + extra i) (i + 1)
    else
      (t, i)

/-- The wait loop started at elapsed time 0, iteration 0. -/
def waitLoop (arrival : Option Nat) (extra : Nat → Nat) : Nat × Nat :=
  waitLoopAux arrival extra 201 0 0

/-- The instant at which the callback sets frameReceived: only a callback that
retrieved a frame (outcome other than noFrame) sets the flag. -/
def arrivalOf : Option FrameEvent → Option Nat
  | none => none
  | some e => if e.outcome = FrameOutcome.noFrame then none else some e.time

/-- Value of the captureSuccess flag after the callback ran: set only when the
save block completed. -/
def flagSuccess : Option FrameEvent → Bool
  | none => false
  | some e => decide (e.outcome = FrameOutcome.saveOk)

/-- Tail of InternalCapture after a successful setup: run the wait loop; if the
flag is set, close the session and the frame pool and return Success or
FileSaveFailed according to captureSuccess; otherwise return TimeoutError
before the Close calls (lines 367 to 374 of ScreenCaptureCore.cpp). -/
def waitPhase (env : Env) : CaptureRun :=
  let arrival := arrivalOf env.frameEvent
  let r := waitLoop arrival env.extra
  if received arrival r.1 = true then
    { result := if flagSuccess env.frameEvent then ErrorCode.Success else ErrorCode.FileSaveFailed
      sessionClosed := true
      framePoolClosed := true
      reachedWait := true
      waitIterations := r.2
      waitElapsed := r.1 }
  else
    { result := ErrorCode.TimeoutError
      sessionClosed := false
      framePoolClosed := false
      reachedWait := true
      waitIterations := r.2
      waitElapsed := r.1 }

/-- ScreenCapture::InternalCapture (ScreenCaptureCore.cpp lines 153 to 396).
Setup stages throw hresult_error on failure, which the outer catch maps to
CaptureSessionFailed.  The cursor toggle runs only when hideCursor is set and is
not guarded by a local try block, so its failure also reaches the outer catch.
The border toggle attempt is wrapped in try and catch with only a log in the
handler, so env.borderToggleOk is never consulted: the swallowing is total. -/
def InternalCapture (hideBorder hideCursor : Bool) (env : Env) : CaptureRun :=
  if env.deviceOk = false then hresultFailure
  else if env.interopOk = false then hresultFailure
  else if env.captureItemOk = false then hresultFailure
  else if env.framePoolOk = false then hresultFailure
  else if env.sessionCreateOk = false then hresultFailure
  else if hideCursor = true ∧ env.cursorToggleOk = false then hresultFailure
  else if env.startOk = false then hresultFailure
  else waitPhase env

/-- Setup stages of InternalCapture all succeed, so control reaches the wait
loop: device, interop, capture item, frame pool and session creation do not
throw, the cursor toggle does not throw when it is exercised, and StartCapture
does not throw. -/
def setupOk (hideCursor : Bool) (env : Env) : Prop :=
  env.deviceOk = true ∧ env.interopOk = true ∧ env.captureItemOk = true ∧
    env.framePoolOk = true ∧ env.sessionCreateOk = true ∧
    (hideCursor = true → env.cursorToggleOk = true) ∧ env.startOk = true

instance (hideCursor : Bool) (env : Env) : Decidable (setupOk hideCursor env) := by
  unfold setupOk
  infer_instance

/-- ConvertErrorCode (ScreenCaptureDLL.cpp lines 55 to 77): maps core error
codes to the stable wire values of the DLL enum ScreenCaptureResult. -/
def ConvertErrorCode : ErrorCode → Nat
  | ErrorCode.Success => 0
  | ErrorCode.InitializationFailed => 1
  | ErrorCode.CaptureItemCreationFailed => 2
  | ErrorCode.CaptureSessionFailed => 3
  | ErrorCode.TextureProcessingFailed => 4
  | ErrorCode.FileSaveFailed => 5
  | ErrorCode.TimeoutError => 6
  | ErrorCode.UnknownError => 99

/-- Observable outcome of CaptureScreenWithOptions: the returned wire code and
whether the core capture object was constructed and invoked at all. -/
structure DllFileRun : Type where
  code : Nat
  coreInvoked : Bool

/-- CaptureScreenWithOptions (ScreenCaptureDLL.cpp lines 87 to 113): a null or
empty output path returns SC_INVALID_PARAMETER, wire value 97, before any
ScreenCapture construction; otherwise the core capture runs and its result is
converted to the wire value. -/
def CaptureScreenWithOptions (outputPath : Option String) (hideBorder hideCursor : Int)
    (env : Env) : DllFileRun :=
  match outputPath with
  | none => { code := 97, coreInvoked := false }
  | some s =>
    if s.length = 0 then { code := 97, coreInvoked := false }
    else
      { code := ConvertErrorCode (InternalCapture (hideBorder != 0) (hideCursor != 0) env).result
        coreInvoked := true }

/-- Final values of the out parameters of CaptureScreenToMemory together with
the returned wire code.  buffer none models a null pointer. -/
structure MemRun : Type where
  code : Nat
  buffer : Option (List Nat)
  size : Nat

/-- CaptureScreenToMemory (ScreenCaptureDLL.cpp lines 115 to 164), given the
result and byte vector of the core CaptureToMemory call and whether malloc
succeeds.  On core Success with a nonempty vector the size out parameter is
written first; if malloc then fails the function returns SC_UNKNOWN_ERROR with
a null buffer while the size keeps the already written length.  On any other
core outcome both out parameters are cleared and the core code is converted. -/
def CaptureScreenToMemory (coreResult : ErrorCode) (coreBuffer : List Nat)
    (allocOk : Bool) : MemRun :=
  if coreResult = ErrorCode.Success ∧ coreBuffer ≠ [] then
    if allocOk then
      { code := 0, buffer := some coreBuffer, size := coreBuffer.length }
    else
      { code := 99, buffer := none, size := coreBuffer.length }
  else
    { code := ConvertErrorCode coreResult, buffer := none, size := 0 }

/-- The eight byte PNG magic signature. -/
def pngMagic : List Nat := [0x89, 0x50, 0x4E, 0x47, 0x0D, 0x0A, 0x1A, 0x0A]

/-- Modelled from the spec: the body of ScreenCapture::CaptureToMemory and
InternalCaptureToMemory is declared in ScreenCaptureCore.h but its definition is
not present under src; per the spec, on Success the core produces the encoded
PNG byte sequence, whose first bytes are the PNG magic signature. -/
def specCoreMemorySuccess (coreResult : ErrorCode) (coreBuffer : List Nat) : Prop :=
  coreResult = ErrorCode.Success → coreBuffer.take 8 = pngMagic

/-- GetErrorDescription (ScreenCaptureDLL.cpp lines 174 to 200): a switch over
the wire values with a default branch, modelled over all integers since the C
enum is int valued. -/
def GetErrorDescription (errorCode : Int) : String :=
  if errorCode = 0 then "Operation completed successfully"
  else if errorCode = 1 then "Failed to initialize capture system"
  else if errorCode = 2 then "Failed to create capture item for monitor"
  else if errorCode = 3 then "Failed to start capture session"
  else if errorCode = 4 then "Failed to process captured texture"
  else if errorCode = 5 then "Failed to save screenshot to file"
  else if errorCode = 6 then "Timeout waiting for frame capture"
  else if errorCode = 97 then "Invalid parameter provided"
  else if errorCode = 98 then "Feature not yet implemented"
  else "Unknown error occurred"

/-- FreeBuffer (ScreenCaptureDLL.cpp lines 166 to 172) over an allocation map:
a non null pointer is released from the live set with free, a null pointer is
guarded by the if and nothing is deallocated. -/
def FreeBuffer (buffer : Option Nat) (allocations : List Nat) : List Nat :=
  match buffer with
  | some p => allocations.erase p
  | none => allocations

/-- Zero scheduling slack: every wait iteration takes exactly 50 ms. -/
def extraZero : Nat → Nat := fun _ => 0

/-- A frame notification at time 0 whose processing and save both succeed. -/
def frameSaveOk : FrameEvent := { time := 0, outcome := FrameOutcome.saveOk }

/-- A frame notification at time 0 whose texture interop or mapping throws. -/
def frameTexError : FrameEvent := { time := 0, outcome := FrameOutcome.texError }

/-- Environment in which every platform call succeeds and a frame arrives
immediately and saves successfully. -/
def envAllOk : Env :=
  { deviceOk := true
    interopOk := true
    captureItemOk := true
    framePoolOk := true
    sessionCreateOk := true
    cursorToggleOk := true
    borderToggleOk := true
    startOk := true
    frameEvent := some frameSaveOk
    extra := extraZero }

/-- Environment in which setup succeeds but no frame notification ever fires. -/
def envNoFrame : Env := { envAllOk with frameEvent := none }

/-- Environment identical to envAllOk except that IsCursorCaptureEnabled
throws, as on a platform version without that setter. -/
def envCursorUnsupported : Env := { envAllOk with cursorToggleOk := false }

/-- Environment in which D3D11CreateDevice fails. -/
def envDeviceFail : Env := { envAllOk with deviceOk := false }

/-- Environment in which the frame arrives but texture interop or mapping
throws inside the callback. -/
def envTexFail : Env := { envAllOk with frameEvent := some frameTexError }

/-- The wait loop can only exit with the flag observed set or with the budget
exhausted, provided enough fuel remains to push the clock past the budget. -/
theorem waitLoopAux_exit (arrival : Option Nat) (extra : Nat → Nat) :
    ∀ (fuel t i : Nat), 10000 ≤ t + 50 * fuel →
      received arrival (waitLoopAux arrival extra fuel t i).1 = true ∨
        10000 ≤ (waitLoopAux arrival extra fuel t i).1 := by
  intro fuel
  induction fuel with
  | zero =>
    intro t i h
    right
    simpa [waitLoopAux] using h
  | succ n ih =>
    intro t i h
    by_cases hc : received arrival t = false ∧ t < 10000
    · have h2 : 10000 ≤ (t + 50 + extra i) + 50 * n := by omega
      simpa [waitLoopAux, hc] using ih (t + 50 + extra i) (i + 1) h2
    · rw [waitLoopAux, if_neg hc]
      by_cases hb : received arrival t = true
      · left
        exact hb
      · right
        push_neg at hc
        have hfalse : received arrival t = false := by
          cases hr : received arrival t
          · rfl
          · exact absurd hr hb
        have := hc hfalse
        show 10000 ≤ t
        omega

/-- The wait loop performs at most 200 iterations: the clock dominates fifty
times the iteration count while the loop guard keeps it under the budget. -/
theorem waitLoopAux_iters (arrival : Option Nat) (extra : Nat → Nat) :
    ∀ (fuel t i : Nat), 50 * i ≤ t → i ≤ 200 →
      (waitLoopAux arrival extra fuel t i).2 ≤ 200 := by
  intro fuel
  induction fuel with
  | zero =>
    intro t i _ h2
    simpa [waitLoopAux] using h2
  | succ n ih =>
    intro t i h1 h2
    by_cases hc : received arrival t = false ∧ t < 10000
    · have h3 : 50 * (i + 1) ≤ t + 50 + extra i := by omega
      have h4 : i + 1 ≤ 200 := by omega
      simpa [waitLoopAux, hc] using ih (t + 50 + extra i) (i + 1) h3 h4
    · rw [waitLoopAux, if_neg hc]
      exact h2

/-- Exit condition of the full wait loop. -/
theorem waitLoop_exit (arrival : Option Nat) (extra : Nat → Nat) :
    received arrival (waitLoop arrival extra).1 = true ∨
      10000 ≤ (waitLoop arrival extra).1 :=
  waitLoopAux_exit arrival extra 201 0 0 (by omega)

/-- Iteration bound of the full wait loop. -/
theorem waitLoop_iters (arrival : Option Nat) (extra : Nat → Nat) :
    (waitLoop arrival extra).2 ≤ 200 :=
  waitLoopAux_iters arrival extra 201 0 0 (by omega) (by omega)

/-- When the flag is never set the loop runs out the full 10 second budget. -/
theorem waitLoop_none (extra : Nat → Nat) : 10000 ≤ (waitLoop none extra).1 := by
  rcases waitLoop_exit none extra with h | h
  · simp [received] at h
  · exact h

/-- A flag set within the budget is observed by the exiting check. -/
theorem waitLoop_some (a : Nat) (extra : Nat → Nat) (ha : a ≤ 10000) :
    received (some a) (waitLoop (some a) extra).1 = true := by
  rcases waitLoop_exit (some a) extra with h | h
  · exact h
  · simp only [received, decide_eq_true_eq]
    omega

/-- When every setup stage succeeds, InternalCapture reduces to the wait
phase. -/
theorem InternalCapture_run (hb hc : Bool) (env : Env) (h : setupOk hc env) :
    InternalCapture hb hc env = waitPhase env := by
  obtain ⟨h1, h2, h3, h4, h5, h6, h7⟩ := h
  unfold InternalCapture
  simp only [h1, h2, h3, h4, h5, h7]
  cases hc with
  | false => simp
  | true => simp [h6 rfl]

/-- Claim C1: for every capture invocation whose setup succeeds and in which no
frame-ready notification is delivered, the call terminates with TimeoutError
after the fixed 10 second wall-clock budget, re-checking the shared completion
flag on a 50 ms cadence, hence in at most 200 loop iterations. -/
theorem InternalCapture_no_frame_timeout (hb hc : Bool) (env : Env)
    (hsetup : setupOk hc env) (hnone : env.frameEvent = none) :
    (InternalCapture hb hc env).result = ErrorCode.TimeoutError ∧
      10000 ≤ (InternalCapture hb hc env).waitElapsed ∧
      (InternalCapture hb hc env).waitIterations ≤ 200 := by
  rw [InternalCapture_run hb hc env hsetup]
  simp only [waitPhase, hnone, arrivalOf, received]
  exact ⟨rfl, waitLoop_none env.extra, waitLoop_iters none env.extra⟩

/-- Witness for C1: on the concrete environment where every setup stage
succeeds and no frame ever arrives, the conclusion holds. -/
theorem InternalCapture_no_frame_timeout_witness :
    (InternalCapture true true envNoFrame).result = ErrorCode.TimeoutError ∧
      10000 ≤ (InternalCapture true true envNoFrame).waitElapsed ∧
      (InternalCapture true true envNoFrame).waitIterations ≤ 200 :=
  InternalCapture_no_frame_timeout true true envNoFrame (by decide) rfl

/-- Claim C2: for every capture invocation whose setup succeeds and that
receives a frame notification within the budget, the terminal result is
Success exactly when encoding and saving succeeded inside the callback, and
FileSaveFailed exactly when the frame was received but they did not. -/
theorem InternalCapture_frame_terminal_result (hb hc : Bool) (env : Env)
    (e : FrameEvent) (hsetup : setupOk hc env) (hev : env.frameEvent = some e)
    (hframe : e.outcome ≠ FrameOutcome.noFrame) (htime : e.time ≤ 10000) :
    ((InternalCapture hb hc env).result = ErrorCode.Success ↔
        e.outcome = FrameOutcome.saveOk) ∧
      ((InternalCapture hb hc env).result = ErrorCode.FileSaveFailed ↔
        ¬e.outcome = FrameOutcome.saveOk) := by
  rw [InternalCapture_run hb hc env hsetup]
  have harr : arrivalOf (some e) = some e.time := by
    simp [arrivalOf, hframe]
  simp only [waitPhase, hev, harr]
  rw [if_pos (waitLoop_some e.time env.extra htime)]
  by_cases hs : e.outcome = FrameOutcome.saveOk
  · simp [flagSuccess, hs]
  · simp [flagSuccess, hs]

/-- Witness for C2: on the concrete all-success environment where the frame
arrives at once and saves, the result is Success. -/
theorem InternalCapture_frame_terminal_result_witness :
    ((InternalCapture true true envAllOk).result = ErrorCode.Success ↔
        frameSaveOk.outcome = FrameOutcome.saveOk) ∧
      ((InternalCapture true true envAllOk).result = ErrorCode.FileSaveFailed ↔
        ¬frameSaveOk.outcome = FrameOutcome.saveOk) :=
  InternalCapture_frame_terminal_result true true envAllOk frameSaveOk
    (by decide) rfl (by decide) (by decide)

/-- Counterexample to claim C3 as stated: on the timeout path, InternalCapture
returns TimeoutError from inside the wait scope, before the session.Close()
and framePool.Close() statements, so neither close executes. -/
theorem InternalCapture_timeout_skips_close :
    (InternalCapture true true envNoFrame).result = ErrorCode.TimeoutError ∧
      (InternalCapture true true envNoFrame).sessionClosed = false ∧
      (InternalCapture true true envNoFrame).framePoolClosed = false := by
  decide

/-- Claim C3 amended: session and frame pool are closed before the return
exactly on the frame-received paths, the ones whose result is Success or
FileSaveFailed; on the timeout path and on the exception paths the explicit
Close calls are skipped. -/
theorem InternalCapture_close_iff_frame_path (hb hc : Bool) (env : Env) :
    ((InternalCapture hb hc env).sessionClosed = true ∧
        (InternalCapture hb hc env).framePoolClosed = true) ↔
      ((InternalCapture hb hc env).result = ErrorCode.Success ∨
        (InternalCapture hb hc env).result = ErrorCode.FileSaveFailed) := by
  unfold InternalCapture waitPhase
  repeat' split
  all_goals simp [hresultFailure]
  all_goals split
  all_goals simp

/-- Counterexample to claim C4 as stated: two environments that differ only in
whether the cursor toggle is supported yield different final ErrorCodes, so a
failed cursor toggle does change the result. -/
theorem InternalCapture_cursor_toggle_changes_result :
    (InternalCapture true true envAllOk).result = ErrorCode.Success ∧
      (InternalCapture true true envCursorUnsupported).result =
        ErrorCode.CaptureSessionFailed := by
  decide

/-- Claim C4 amended: the border toggle is genuinely best-effort, its failure
never influences the run at all; the cursor toggle is not guarded, so when
hideCursor is requested and the toggle throws, the call returns
CaptureSessionFailed. -/
theorem InternalCapture_toggle_policy :
    (∀ (hb hc : Bool) (env : Env) (b : Bool),
        InternalCapture hb hc { env with borderToggleOk := b } =
          InternalCapture hb hc env) ∧
      (∀ (hb : Bool) (env : Env),
        env.deviceOk = true → env.interopOk = true → env.captureItemOk = true →
          env.framePoolOk = true → env.sessionCreateOk = true →
          env.cursorToggleOk = false →
          (InternalCapture hb true env).result = ErrorCode.CaptureSessionFailed) := by
  constructor
  · intro hb hc env b
    cases env
    rfl
  · intro hb env h1 h2 h3 h4 h5 h6
    simp [InternalCapture, h1, h2, h3, h4, h5, h6, hresultFailure]

/-- Witness for C4 amended: border-toggle insensitivity at a concrete
environment, and the cursor-failure environment returning
CaptureSessionFailed. -/
theorem InternalCapture_toggle_policy_witness :
    InternalCapture true true { envAllOk with borderToggleOk := false } =
        InternalCapture true true envAllOk ∧
      (InternalCapture true true envCursorUnsupported).result =
        ErrorCode.CaptureSessionFailed :=
  ⟨InternalCapture_toggle_policy.1 true true envAllOk false,
    InternalCapture_toggle_policy.2 true envCursorUnsupported rfl rfl rfl rfl rfl rfl⟩

/-- Counterexample to claim C5 as stated: when the graphics device provider
fails, the thrown hresult_error reaches the outer catch and the call returns
CaptureSessionFailed, not InitializationFailed. -/
theorem InternalCapture_device_failure_not_initialization :
    (InternalCapture true true envDeviceFail).result = ErrorCode.CaptureSessionFailed ∧
      (InternalCapture true true envDeviceFail).result ≠ ErrorCode.InitializationFailed := by
  decide

/-- Claim C5 amended: for every capture invocation in which the graphics device
provider fails, the call returns CaptureSessionFailed, the code the outer
hresult handler maps every setup failure to. -/
theorem InternalCapture_device_failure_session_code (hb hc : Bool) (env : Env)
    (h : env.deviceOk = false) :
    (InternalCapture hb hc env).result = ErrorCode.CaptureSessionFailed := by
  simp [InternalCapture, h, hresultFailure]

/-- Witness for C5 amended at the concrete device-failure environment. -/
theorem InternalCapture_device_failure_session_code_witness :
    (InternalCapture true true envDeviceFail).result = ErrorCode.CaptureSessionFailed :=
  InternalCapture_device_failure_session_code true true envDeviceFail rfl

/-- Counterexample to claim C6 as stated: when interface negotiation or mapping
throws while materializing the delivered frame, the callback handler sets the
completion flag with captureSuccess still false, so the call returns
FileSaveFailed, not TextureProcessingFailed. -/
theorem InternalCapture_texture_failure_not_texture_code :
    (InternalCapture true true envTexFail).result = ErrorCode.FileSaveFailed ∧
      (InternalCapture true true envTexFail).result ≠ ErrorCode.TextureProcessingFailed := by
  decide

/-- Claim C6 amended: for every capture invocation whose setup succeeds and in
which interface negotiation or texture mapping fails inside the callback within
the budget, the call returns FileSaveFailed. -/
theorem InternalCapture_texture_failure_save_code (hb hc : Bool) (env : Env)
    (e : FrameEvent) (hsetup : setupOk hc env) (hev : env.frameEvent = some e)
    (ho : e.outcome = FrameOutcome.texError) (htime : e.time ≤ 10000) :
    (InternalCapture hb hc env).result = ErrorCode.FileSaveFailed := by
  have h :=
    InternalCapture_frame_terminal_result hb hc env e hsetup hev (by rw [ho]; decide) htime
  exact h.2.mpr (by rw [ho]; decide)

/-- Witness for C6 amended at the concrete texture-failure environment. -/
theorem InternalCapture_texture_failure_save_code_witness :
    (InternalCapture true true envTexFail).result = ErrorCode.FileSaveFailed :=
  InternalCapture_texture_failure_save_code true true envTexFail frameTexError
    (by decide) rfl rfl (by decide)

/-- Claim C7: for every null or empty output path, CaptureScreenWithOptions
returns the InvalidParameter wire value 97 immediately, and the core capture
object — hence any device, capture-target or session acquisition — is never
constructed. -/
theorem CaptureScreenWithOptions_rejects_invalid_path (hideBorder hideCursor : Int)
    (env : Env) :
    CaptureScreenWithOptions none hideBorder hideCursor env =
        { code := 97, coreInvoked := false } ∧
      CaptureScreenWithOptions (some "") hideBorder hideCursor env =
        { code := 97, coreInvoked := false } :=
  ⟨rfl, rfl⟩

/-- Counterexample to claim C8 as stated: when the core capture succeeds but
the malloc for the caller-owned copy fails, CaptureScreenToMemory returns the
UnknownError wire value with a null buffer, yet the size out parameter, written
before the allocation, keeps the PNG byte length instead of being zeroed. -/
theorem CaptureScreenToMemory_alloc_failure_size :
    (CaptureScreenToMemory ErrorCode.Success pngMagic false).code = 99 ∧
      (CaptureScreenToMemory ErrorCode.Success pngMagic false).buffer = none ∧
      (CaptureScreenToMemory ErrorCode.Success pngMagic false).size = 8 := by
  decide

/-- Claim C8 amended: if the result is Success the buffer is the PNG byte
sequence and the size is its length; if the result is not Success the buffer is
null, and the size is zero except on the allocation-failure path, where the
core result was Success, malloc failed, and the size keeps the PNG length. -/
theorem CaptureScreenToMemory_output_contract (coreResult : ErrorCode)
    (coreBuffer : List Nat) (allocOk : Bool)
    (hspec : specCoreMemorySuccess coreResult coreBuffer) :
    ((CaptureScreenToMemory coreResult coreBuffer allocOk).code = 0 →
        (CaptureScreenToMemory coreResult coreBuffer allocOk).buffer = some coreBuffer ∧
          (CaptureScreenToMemory coreResult coreBuffer allocOk).size = coreBuffer.length) ∧
      ((CaptureScreenToMemory coreResult coreBuffer allocOk).code ≠ 0 →
        (CaptureScreenToMemory coreResult coreBuffer allocOk).buffer = none) ∧
      ((CaptureScreenToMemory coreResult coreBuffer allocOk).code ≠ 0 →
        coreResult ≠ ErrorCode.Success →
          (CaptureScreenToMemory coreResult coreBuffer allocOk).size = 0) ∧
      ((CaptureScreenToMemory coreResult coreBuffer allocOk).code ≠ 0 →
        coreResult = ErrorCode.Success →
          (CaptureScreenToMemory coreResult coreBuffer allocOk).size = coreBuffer.length ∧
            allocOk = false) := by
  unfold CaptureScreenToMemory
  by_cases hcase : coreResult = ErrorCode.Success ∧ coreBuffer ≠ []
  · rw [if_pos hcase]
    cases allocOk
    · simp [hcase.1]
    · simp [hcase.1]
  · rw [if_neg hcase]
    have hne : coreResult ≠ ErrorCode.Success := by
      intro hs
      have hmag := hspec hs
      have hnonempty : coreBuffer ≠ [] := by
        intro hempty
        rw [hempty] at hmag
        exact absurd hmag (by decide)
      exact hcase ⟨hs, hnonempty⟩
    have hcode : ConvertErrorCode coreResult ≠ 0 := by
      cases coreResult
      · exact absurd rfl hne
      all_goals simp [ConvertErrorCode]
    simp [hcode, hne]

/-- Witness for C8 amended: core Success with the PNG signature bytes and a
successful allocation. -/
theorem CaptureScreenToMemory_output_contract_witness :
    ((CaptureScreenToMemory ErrorCode.Success pngMagic true).code = 0 →
        (CaptureScreenToMemory ErrorCode.Success pngMagic true).buffer = some pngMagic ∧
          (CaptureScreenToMemory ErrorCode.Success pngMagic true).size = pngMagic.length) ∧
      ((CaptureScreenToMemory ErrorCode.Success pngMagic true).code ≠ 0 →
        (CaptureScreenToMemory ErrorCode.Success pngMagic true).buffer = none) ∧
      ((CaptureScreenToMemory ErrorCode.Success pngMagic true).code ≠ 0 →
        ErrorCode.Success ≠ ErrorCode.Success →
          (CaptureScreenToMemory ErrorCode.Success pngMagic true).size = 0) ∧
      ((CaptureScreenToMemory ErrorCode.Success pngMagic true).code ≠ 0 →
        ErrorCode.Success = ErrorCode.Success →
          (CaptureScreenToMemory ErrorCode.Success pngMagic true).size = pngMagic.length ∧
            true = false) :=
  CaptureScreenToMemory_output_contract ErrorCode.Success pngMagic true
    (fun _ => rfl)

/-- Claim C9: GetErrorDescription is total and side-effect free; for every
integer — each defined wire value and every value outside the known set — it
returns a non-empty text. -/
theorem GetErrorDescription_total_nonempty (errorCode : Int) :
    0 < (GetErrorDescription errorCode).length := by
  unfold GetErrorDescription
  repeat' split
  all_goals decide

/-- Claim C10: FreeBuffer called with a null pointer is a safe no-op — the
null check guards the free call, so the allocation map is unchanged and the
function returns normally. -/
theorem FreeBuffer_null_noop (allocations : List Nat) :
    FreeBuffer none allocations = allocations :=
  rfl
